import Mathlib

/-!
# Verification of the PennyLane lab bootstrap script

A shallow embedding of `setup.py` (and of the shipped `verify_install.py`)
from the IQC_Pennylane_Presentation repository.

The program is a sequential provisioning script: it detects whether the
interpreter runs inside an isolated environment, checks the interpreter
version, installs a fixed package list either in place (via pip) or into a
freshly created conda environment, and finally writes a static verification
script to disk.

The embedding models the external world as an oracle (`ProcState`): the
interpreter prefixes and the `CONDA_DEFAULT_ENV` variable as observed at each
call of the detector, the interpreter version, whether `conda` is on the
search path, and the exit status of each potential subprocess.  Running the
program produces a trace of observable events (prints, subprocess
invocations with their exact argument vectors, file writes) together with
the process exit code (`0` for a normal return, the argument of `sys.exit`
otherwise).
-/

/-- The process-level signals read by one call of the environment detector:
`sys.prefix`, `getattr(sys, "base_prefix", ...)` (absent on very old
interpreters, hence optional), and `os.environ.get("CONDA_DEFAULT_ENV")`. -/
structure EnvSnapshot where
  sysPrefixVal : String
  basePrefixVal : Option String
  condaDefaultEnv : Option String
  deriving DecidableEq

/-- The oracle describing one run of the script: `snap n` is the environment
snapshot observed by the `n`-th call of `is_virtual_env` (the detector is
re-evaluated on every call, never cached), the remaining fields fix the
interpreter version, `sys.executable`, whether `shutil.which("conda")`
succeeds, `platform.system()`, and the success of each subprocess that may
be spawned. -/
structure ProcState where
  snap : Nat → EnvSnapshot
  pyMajor : Nat
  pyMinor : Nat
  pyMicro : Nat
  sysExecutable : String
  condaOnPath : Bool
  pipOk : Bool
  createOk : Bool
  condaPipOk : Bool
  platformSystem : String

/-- Observable events of a run: a line printed to stdout, a subprocess
invocation (`subprocess.check_call` argument vector plus whether it exited
zero), a call of one of the script's own functions (entry marker), and a
file write (`open(name, mode)` followed by `write(content)`; `append` is
`false` for mode `"w"`). -/
inductive Event where
  | print (msg : String)
  | subproc (cmd : List String) (ok : Bool)
  | call (fn : String)
  | writeFile (name : String) (content : String) (append : Bool)
  deriving DecidableEq

/-- `ENV_NAME = "pennylane_lab"` from setup.py. -/
def ENV_NAME : String := "pennylane_lab"

/-- `REQUIRED_PY_MAJOR = 3` from setup.py. -/
def REQUIRED_PY_MAJOR : Nat := 3

/-- `REQUIRED_PY_MINOR = 10` from setup.py. -/
def REQUIRED_PY_MINOR : Nat := 10

/-- `TARGET_PY_VERSION = "3.13"` from setup.py. -/
def TARGET_PY_VERSION : String := "3.13"

/-- `PIP_PACKAGES` from setup.py: the fixed ordered package manifest. -/
def PIP_PACKAGES : List String :=
  ["pennylane>=0.38", "pennylane-qiskit", "numpy>=2.3.5", "stim", "matplotlib", "jupyter"]

/-- `print_step` from setup.py. -/
def print_step (message : String) : Event :=
  Event.print ("\n[+] " ++ message)

/-- `print_warn` from setup.py (defined in the source, never called). -/
def print_warn (message : String) : Event :=
  Event.print ("\n[!] WARNING: " ++ message)

/-- `print_error` from setup.py. -/
def print_error (message : String) : Event :=
  Event.print ("\n[!!] ERROR: " ++ message)

/-- `is_virtual_env` from setup.py, as a function of the snapshot read at the
moment of the call: `is_venv = (sys.prefix != getattr(sys, "base_prefix",
sys.prefix))`, `is_conda = os.environ.get("CONDA_DEFAULT_ENV") is not None`,
returning `is_venv or is_conda`. -/
def is_virtual_env (e : EnvSnapshot) : Bool :=
  let is_venv := e.sysPrefixVal != e.basePrefixVal.getD e.sysPrefixVal
  let is_conda := e.condaDefaultEnv.isSome
  is_venv || is_conda

/-- The failure condition of the version gate in `check_python_version`:
`major < REQUIRED_PY_MAJOR or (major == REQUIRED_PY_MAJOR and minor <
REQUIRED_PY_MINOR)`. -/
def versionBelowMin (major minor : Nat) : Bool :=
  decide (major < REQUIRED_PY_MAJOR) ||
    (decide (major = REQUIRED_PY_MAJOR) && decide (minor < REQUIRED_PY_MINOR))

/-- `check_python_version` from setup.py: prints the detected version, then
exits with status 1 when the version is below the minimum.  Returns the
emitted events and `some code` when `sys.exit(code)` was called. -/
def check_python_version (s : ProcState) : List Event × Option Nat :=
  let major := s.pyMajor
  let minor := s.pyMinor
  let header := Event.print ("    Current Python: " ++
    (toString major ++ ("." ++ (toString minor ++ ("." ++ toString s.pyMicro)))))
  if versionBelowMin major minor then
    ([Event.call "check_python_version", header,
      print_error ("PennyLane requires Python " ++
        (toString REQUIRED_PY_MAJOR ++ ("." ++ (toString REQUIRED_PY_MINOR ++
          ("+. You are running " ++ (toString major ++ ("." ++ (toString minor ++ "."))))))))],
     some 1)
  else
    ([Event.call "check_python_version", header], none)

/-- The argument vector of the in-place installer in
`install_packages_current_env`: `[sys.executable, "-m", "pip", "install"] +
PIP_PACKAGES`. -/
def currentEnvPipCmd (s : ProcState) : List String :=
  [s.sysExecutable, "-m", "pip", "install"] ++ PIP_PACKAGES

/-- The argument vector of the environment creation in
`create_conda_env_if_needed`: `["conda", "create", "-n", ENV_NAME,
f"python={TARGET_PY_VERSION}", "-y"]`. -/
def condaCreateCmd : List String :=
  ["conda", "create", "-n", ENV_NAME, "python=" ++ TARGET_PY_VERSION, "-y"]

/-- The argument vector of the isolated installer in
`install_packages_conda_env`: `["conda", "run", "-n", ENV_NAME, "pip",
"install"] + PIP_PACKAGES`. -/
def condaRunPipCmd : List String :=
  ["conda", "run", "-n", ENV_NAME, "pip", "install"] ++ PIP_PACKAGES

/-- `install_packages_current_env` from setup.py. -/
def install_packages_current_env (s : ProcState) : List Event × Option Nat :=
  let cmd := currentEnvPipCmd s
  if s.pipOk then
    ([Event.call "install_packages_current_env",
      print_step "Installing packages into CURRENT active environment...",
      Event.subproc cmd true,
      Event.print "    Success: Packages installed."], none)
  else
    ([Event.call "install_packages_current_env",
      print_step "Installing packages into CURRENT active environment...",
      Event.subproc cmd false,
      print_error "Failed to install packages via pip."], some 1)

/-- `create_conda_env_if_needed` from setup.py.  Reads the detector again
(snapshot 1: the second call of `is_virtual_env` in a run of `main`).
Returns the events, `some code` when `sys.exit(code)` was called, and the
boolean result (`created_new`). -/
def create_conda_env_if_needed (s : ProcState) : List Event × Option Nat × Bool :=
  let entry := [Event.call "create_conda_env_if_needed",
                print_step "Checking for existing environment..."]
  if is_virtual_env (s.snap 1) then
    (entry ++
      [Event.print ("    Active environment detected (" ++ ((s.snap 1).sysPrefixVal ++ ").")),
       Event.print "    Skipping new environment creation."], none, false)
  else
    let entry2 := entry ++ [Event.print "    No active virtual environment detected."]
    if !s.condaOnPath then
      (entry2 ++
        [print_error "No active venv found AND Conda is not installed.",
         Event.print "    Please either:",
         Event.print "    1. Create a venv (PyCharm/uv) and run this script inside it.",
         Event.print "    2. Install Anaconda/Miniconda."], some 1, false)
    else
      let entry3 := entry2 ++
        [print_step ("Creating fresh Conda environment \x27" ++
          (ENV_NAME ++ ("\x27 with Python " ++ (TARGET_PY_VERSION ++ "..."))))]
      if s.createOk then
        (entry3 ++ [Event.subproc condaCreateCmd true], none, true)
      else
        (entry3 ++ [Event.subproc condaCreateCmd false,
                    print_error "Failed to create Conda environment."], some 1, false)

/-- `install_packages_conda_env` from setup.py. -/
def install_packages_conda_env (s : ProcState) : List Event × Option Nat :=
  let entry := [Event.call "install_packages_conda_env",
                print_step ("Installing packages into Conda env \x27" ++ (ENV_NAME ++ "\x27..."))]
  if s.condaPipOk then
    (entry ++ [Event.subproc condaRunPipCmd true], none)
  else
    (entry ++ [Event.subproc condaRunPipCmd false,
               print_error "Failed to install packages into Conda env."], some 1)

/-- The exact string value of the `code` template in
`create_verification_script` (the triple-quoted literal of setup.py, after
Python escape processing: the doubled backslash collapses to a single one,
the string starts and ends with a newline). -/
def verificationCode : String :=
  "\nimport pennylane as qml\nimport matplotlib.pyplot as plt\nimport sys\n\nprint(f\"\\nPython Version: {sys.version.split()[0]}\")\nprint(f\"PennyLane Version: {qml.version()}\")\ndef main():\n    # 1. Device Creation Check\n    try:\n        dev = qml.device(\"default.qubit\", wires=2)\n        print(\"Device created successfully.\")\n    except Exception as e:\n        print(f\"Error creating device: {e}\")\n        sys.exit(1)\n\n    # 2. Circuit Execution Check\n    @qml.qnode(dev)\n    def circuit(theta):\n        qml.RX(theta, wires=0)\n        qml.CNOT(wires=[0, 1])\n        return qml.expval(qml.PauliZ(0))\n\n    try:\n        result = circuit(0.5)\n        print(f\"Circuit execution result: {result}\")\n        print(\"SUCCESS: Environment is ready for the lab.\")\n    except Exception as e:\n        print(f\"Error running circuit: {e}\")\nif __name__ == \"__main__\":\n    main()\n"

/-- `create_verification_script` from setup.py: prints a step message and
writes the template to `verify_install.py` with mode `"w"` (overwrite, not
append). -/
def create_verification_script : List Event :=
  [Event.call "create_verification_script",
   print_step "Creating verification script (verify_install.py)...",
   Event.writeFile "verify_install.py" verificationCode false]

/-- The three banner lines printed at the start of `main`. -/
def bannerEvents : List Event :=
  [Event.print "=========================================",
   Event.print "   PennyLane Lab Setup (Smart Mode)",
   Event.print "========================================="]

namespace SetupPy

/-- `main` from setup.py: the whole orchestrator.  Returns the event trace
and the process exit code (`0` when `main` returns normally, otherwise the
argument of the `sys.exit` that terminated the run). -/
def main (s : ProcState) : List Event × Nat :=
  if is_virtual_env (s.snap 0) then
    let pre := bannerEvents ++
      [Event.print "Status: Running inside an active virtual environment."]
    match check_python_version s with
    | (e1, some c) => (pre ++ e1, c)
    | (e1, none) =>
      match install_packages_current_env s with
      | (e2, some c) => (pre ++ e1 ++ e2, c)
      | (e2, none) =>
        (pre ++ e1 ++ e2 ++ create_verification_script ++
          [print_step "SETUP COMPLETE (In current environment)",
           Event.print "Run: python verify_install.py"], 0)
  else
    let pre := bannerEvents ++
      [Event.print "Status: System python detected (unsafe). initializing Conda flow."]
    match check_python_version s with
    | (e1, some c) => (pre ++ e1, c)
    | (e1, none) =>
      match create_conda_env_if_needed s with
      | (e2, some c, _) => (pre ++ e1 ++ e2, c)
      | (e2, none, created_new) =>
        if created_new then
          match install_packages_conda_env s with
          | (e3, some c) => (pre ++ e1 ++ e2 ++ e3, c)
          | (e3, none) =>
            (pre ++ e1 ++ e2 ++ e3 ++ create_verification_script ++
              [print_step "SETUP COMPLETE (New Conda Env Created)",
               (if s.platformSystem == "Windows" then
                  Event.print ("Run: conda activate " ++ ENV_NAME)
                else
                  Event.print ("Run: conda activate " ++ ENV_NAME)),
               Event.print "Then: python verify_install.py"], 0)
        else
          (pre ++ e1 ++ e2, 0)

end SetupPy

/-! ## Trace observers -/

/-- Whether an event is a file write. -/
def isWriteEvent : Event → Bool
  | Event.writeFile _ _ _ => true
  | _ => false

/-- Projects a subprocess event to its argument vector and result. -/
def subprocOf : Event → Option (List String × Bool)
  | Event.subproc cmd ok => some (cmd, ok)
  | _ => none

/-- The subprocess invocations of a trace, in order. -/
def subprocEvents (t : List Event) : List (List String × Bool) :=
  t.filterMap subprocOf

/-- The file-write events of a trace, in order. -/
def writeEvents (t : List Event) : List Event :=
  t.filter isWriteEvent

/-- The maximal prefix of a trace before any file write (before the
verification script is emitted). -/
def beforeEmission (t : List Event) : List Event :=
  t.takeWhile (fun e => !isWriteEvent e)

/-- A run proceeds to the environment-creation step exactly when it enters
`create_conda_env_if_needed`. -/
def reachesCreateStep (t : List Event) : Prop :=
  Event.call "create_conda_env_if_needed" ∈ t

instance (t : List Event) : Decidable (reachesCreateStep t) := by
  unfold reachesCreateStep; infer_instance

/-! ## Spec-side definitions (for comparison with the code) -/

/-- Isolation signal (a) of the spec, as the code computes it: the
interpreter install prefix differs from its base/system prefix. -/
def signalPrefixDiffers (e : EnvSnapshot) : Bool :=
  e.sysPrefixVal != e.basePrefixVal.getD e.sysPrefixVal

/-- Isolation signal (b) as the code computes it: the marker variable
`CONDA_DEFAULT_ENV` is present in the process environment. -/
def signalMarkerPresent (e : EnvSnapshot) : Bool :=
  e.condaDefaultEnv.isSome

/-- Isolation signal (b) as the spec words it: the marker variable is
present AND non-empty. -/
def specSignalMarkerNonempty (e : EnvSnapshot) : Bool :=
  match e.condaDefaultEnv with
  | some v => v != ""
  | none => false

/-- The version-gate pass condition as the claim words it:
`(major, minor) ≥ (3, 10)` in lexicographic order. -/
def specVersionAtLeastMin (major minor : Nat) : Bool :=
  decide (REQUIRED_PY_MAJOR < major) ||
    (decide (major = REQUIRED_PY_MAJOR) && decide (REQUIRED_PY_MINOR ≤ minor))

/-- The exact content of the shipped file `src/verify_install.py`
(851 bytes; the file does not end with a newline). -/
def verifyInstallContent : String :=
  "\nimport pennylane as qml\nimport matplotlib.pyplot as plt\nimport sys\n\nprint(f\"\\nPython Version: {sys.version.split()[0]}\")\nprint(f\"PennyLane Version: {qml.version()}\")\ndef main():\n    # 1. Device Creation Check\n    try:\n        dev = qml.device(\"default.qubit\", wires=2)\n        print(\"Device created successfully.\")\n    except Exception as e:\n        print(f\"Error creating device: {e}\")\n        sys.exit(1)\n\n    # 2. Circuit Execution Check\n    @qml.qnode(dev)\n    def circuit(theta):\n        qml.RX(theta, wires=0)\n        qml.CNOT(wires=[0, 1])\n        return qml.expval(qml.PauliZ(0))\n\n    try:\n        result = circuit(0.5)\n        print(f\"Circuit execution result: {result}\")\n        print(\"SUCCESS: Environment is ready for the lab.\")\n    except Exception as e:\n        print(f\"Error running circuit: {e}\")\nif __name__ == \"__main__\":\n    main()"

/-! ## Helper lemmas -/

/-- The claim-side pass condition `(major, minor) ≥ (3, 10)` is exactly the
negation of the code's failure condition. -/
theorem specVersionAtLeastMin_iff (major minor : Nat) :
    specVersionAtLeastMin major minor = true ↔ versionBelowMin major minor = false := by
  simp [specVersionAtLeastMin, versionBelowMin, REQUIRED_PY_MAJOR, REQUIRED_PY_MINOR]
  omega

/-- Two strings differ when the first starts (after a known concrete part)
with a character the second does not start with. -/
theorem append_ne_of_head (p x q : String) (c : Char)
    (hp : p.data.head? = some c) (hq : q.data.head? ≠ some c) :
    p ++ x ≠ q := by
  intro h
  apply hq
  have hd : p.data ++ x.data = q.data := by
    have h2 : (p ++ x).data = q.data := congrArg String.data h
    simpa [String.data_append] using h2
  rw [← hd]
  cases hl : p.data with
  | nil => rw [hl] at hp; simp at hp
  | cons a l =>
    rw [hl] at hp
    simp at hp
    simp [hp]

set_option maxRecDepth 8192

/-! ## Claims -/

/-- C1 counterexample: in a process state where the install prefix equals
the base prefix and `CONDA_DEFAULT_ENV` is present but EMPTY, both signals
of the claim ((a) prefix differs, (b) marker present and non-empty) are
false, yet `is_virtual_env` returns "isolated" — the code only tests
presence (`is not None`), not non-emptiness. -/
theorem C1_counterexample :
    signalPrefixDiffers ⟨"/usr", some "/usr", some ""⟩ = false ∧
    specSignalMarkerNonempty ⟨"/usr", some "/usr", some ""⟩ = false ∧
    is_virtual_env ⟨"/usr", some "/usr", some ""⟩ = true := by
  decide

/-- C1 (amended): the detector's verdict is exactly the logical OR of
(a) the install prefix differing from the base/system prefix and (b) the
marker variable `CONDA_DEFAULT_ENV` being PRESENT in the process
environment (regardless of whether its value is empty); with both signals
false it returns "not isolated". -/
theorem C1_detector_or_of_signals (e : EnvSnapshot) :
    is_virtual_env e = (signalPrefixDiffers e || signalMarkerPresent e) := rfl

/-- C3: the version gate passes exactly for interpreter versions with
`(major, minor) ≥ (3, 10)`; below that it reports the detected version,
and the whole process exits with status 1 without any subprocess (hence no
installation) having been attempted. -/
theorem C3_version_gate (s : ProcState) :
    (specVersionAtLeastMin s.pyMajor s.pyMinor = true →
      (check_python_version s).2 = none) ∧
    (specVersionAtLeastMin s.pyMajor s.pyMinor = false →
      (check_python_version s).2 = some 1 ∧
      Event.print ("    Current Python: " ++ (toString s.pyMajor ++ ("." ++
        (toString s.pyMinor ++ ("." ++ toString s.pyMicro))))) ∈ (check_python_version s).1 ∧
      (SetupPy.main s).2 = 1 ∧
      subprocEvents (SetupPy.main s).1 = []) := by
  constructor
  · intro h
    have hb := (specVersionAtLeastMin_iff _ _).1 h
    simp [check_python_version, hb]
  · intro h
    have hb : versionBelowMin s.pyMajor s.pyMinor = true := by
      cases hbt : versionBelowMin s.pyMajor s.pyMinor with
      | false => exact absurd ((specVersionAtLeastMin_iff _ _).2 hbt) (by simp [h])
      | true => rfl
    refine ⟨by simp [check_python_version, hb], by simp [check_python_version, hb], ?_, ?_⟩
    · by_cases hA : is_virtual_env (s.snap 0) = true
      · simp [SetupPy.main, check_python_version, hb, hA]
      · simp [SetupPy.main, check_python_version, hb, hA]
    · by_cases hA : is_virtual_env (s.snap 0) = true
      · simp [SetupPy.main, check_python_version, hb, hA, subprocEvents, subprocOf,
          bannerEvents, print_error]
      · simp [SetupPy.main, check_python_version, hb, hA, subprocEvents, subprocOf,
          bannerEvents, print_error]

/-- A run with version 3.12 in an isolated environment, all subprocesses
succeeding. -/
def stC3pass : ProcState :=
  ⟨fun _ => ⟨"/venv", some "/usr", none⟩, 3, 12, 1, "/venv/bin/python",
   true, true, true, true, "Linux"⟩

/-- A run with version 3.9 on the system interpreter. -/
def stC3fail : ProcState :=
  ⟨fun _ => ⟨"/usr", some "/usr", none⟩, 3, 9, 0, "/usr/bin/python3",
   true, true, true, true, "Linux"⟩

/-- Witness for C3: at version 3.12 the gate passes; at version 3.9 it
fails, the process exits 1 and no subprocess was attempted. -/
theorem C3_version_gate_witness :
    specVersionAtLeastMin stC3pass.pyMajor stC3pass.pyMinor = true ∧
    (check_python_version stC3pass).2 = none ∧
    specVersionAtLeastMin stC3fail.pyMajor stC3fail.pyMinor = false ∧
    (SetupPy.main stC3fail).2 = 1 ∧
    subprocEvents (SetupPy.main stC3fail).1 = [] :=
  ⟨by decide, (C3_version_gate stC3pass).1 (by decide), by decide,
   ((C3_version_gate stC3fail).2 (by decide)).2.2.1,
   ((C3_version_gate stC3fail).2 (by decide)).2.2.2⟩

/-- C10 counterexample: the text written by the emitter is NOT byte-for-byte
identical to the shipped `src/verify_install.py` — the emitted text is 852
bytes and ends with a newline, the shipped copy is 851 bytes and does not. -/
theorem C10_counterexample : verificationCode ≠ verifyInstallContent := by
  decide

/-- C10 (amended): the emitted text agrees with the shipped
`src/verify_install.py` on every byte of the latter and additionally ends
with exactly one extra trailing newline: it equals the shipped content
followed by `"\n"`. -/
theorem C10_emitted_eq_shipped_newline :
    verificationCode = verifyInstallContent ++ "\n" := by rfl

/-- The non-isolated path with interpreter version 3.9 (conda available,
all subprocesses would succeed). -/
def stC2old : ProcState :=
  ⟨fun _ => ⟨"/usr", some "/usr", none⟩, 3, 9, 0, "/usr/bin/python3",
   true, true, true, true, "Linux"⟩

/-- The non-isolated path with interpreter version 3.12 (conda available,
all subprocesses succeed). -/
def stC2new : ProcState :=
  ⟨fun _ => ⟨"/usr", some "/usr", none⟩, 3, 12, 1, "/usr/bin/python3",
   true, true, true, true, "Linux"⟩

/-- C2 counterexample: a non-isolated run on interpreter version 3.9 — the
detector returns false, yet after the version check the orchestrator does
NOT proceed to the environment-creation step: the check terminates the
process with status 1.  This refutes "for every interpreter version, after
the check the orchestrator still proceeds to the environment-creation
step". -/
theorem C2_counterexample :
    is_virtual_env (stC2old.snap 0) = false ∧
    ¬ reachesCreateStep (SetupPy.main stC2old).1 ∧
    (SetupPy.main stC2old).2 = 1 := by
  decide

/-- C2 (amended): on the non-isolated path the Python-version check DOES
gate environment creation: for every interpreter version ≥ 3.10 the
orchestrator proceeds to the environment-creation step after the check,
and for every version < 3.10 the check terminates the process with status
1 and the environment-creation step is never reached. -/
theorem C2_version_check_gates_creation (s : ProcState)
    (h0 : is_virtual_env (s.snap 0) = false) :
    (versionBelowMin s.pyMajor s.pyMinor = false →
      reachesCreateStep (SetupPy.main s).1) ∧
    (versionBelowMin s.pyMajor s.pyMinor = true →
      ¬ reachesCreateStep (SetupPy.main s).1 ∧ (SetupPy.main s).2 = 1) := by
  constructor
  · intro hv
    by_cases h1 : is_virtual_env (s.snap 1) = true
    · simp [SetupPy.main, check_python_version, create_conda_env_if_needed,
        reachesCreateStep, hv, h0, h1, bannerEvents]
    · by_cases hc : s.condaOnPath = true
      · by_cases hcr : s.createOk = true
        · by_cases hcp : s.condaPipOk = true
          · simp [SetupPy.main, check_python_version, create_conda_env_if_needed,
              install_packages_conda_env, create_verification_script,
              reachesCreateStep, hv, h0, h1, hc, hcr, hcp, bannerEvents]
          · simp [SetupPy.main, check_python_version, create_conda_env_if_needed,
              install_packages_conda_env, reachesCreateStep, hv, h0, h1, hc, hcr, hcp,
              bannerEvents]
        · simp [SetupPy.main, check_python_version, create_conda_env_if_needed,
            reachesCreateStep, hv, h0, h1, hc, hcr, bannerEvents]
      · simp [SetupPy.main, check_python_version, create_conda_env_if_needed,
          reachesCreateStep, hv, h0, h1, hc, bannerEvents]
  · intro hv
    constructor
    · simp [SetupPy.main, check_python_version, reachesCreateStep, hv, h0,
        bannerEvents, print_error]
    · simp [SetupPy.main, check_python_version, hv, h0]

/-- Witness for the amended C2: at version 3.12 the non-isolated run reaches
the environment-creation step; at version 3.9 it does not and exits 1. -/
theorem C2_version_check_gates_creation_witness :
    is_virtual_env (stC2new.snap 0) = false ∧
    versionBelowMin stC2new.pyMajor stC2new.pyMinor = false ∧
    reachesCreateStep (SetupPy.main stC2new).1 ∧
    versionBelowMin stC2old.pyMajor stC2old.pyMinor = true ∧
    ¬ reachesCreateStep (SetupPy.main stC2old).1 :=
  ⟨by decide, by decide,
   (C2_version_check_gates_creation stC2new (by decide)).1 (by decide),
   by decide,
   ((C2_version_check_gates_creation stC2old (by decide)).2 (by decide)).1⟩

/-- C4: on every isolated run that passes the version gate, the complete
sequence of subprocess invocations is the single in-place pip install;
that invocation lies in the trace prefix before any file write, so it is
the only subprocess before the verification script is emitted; when it
succeeds the script is emitted; and the environment-creation command is
never invoked in the run. -/
theorem C4_isolated_one_subproc (s : ProcState)
    (h0 : is_virtual_env (s.snap 0) = true)
    (hv : versionBelowMin s.pyMajor s.pyMinor = false) :
    subprocEvents (SetupPy.main s).1 = [(currentEnvPipCmd s, s.pipOk)] ∧
    subprocEvents (beforeEmission (SetupPy.main s).1) = [(currentEnvPipCmd s, s.pipOk)] ∧
    (s.pipOk = true → writeEvents (SetupPy.main s).1 =
      [Event.writeFile "verify_install.py" verificationCode false]) ∧
    (∀ ok, (condaCreateCmd, ok) ∉ subprocEvents (SetupPy.main s).1) := by
  by_cases hp : s.pipOk = true <;>
  · refine ⟨?_, ?_, ?_, ?_⟩ <;>
      simp [SetupPy.main, check_python_version, install_packages_current_env,
        create_verification_script, subprocEvents, subprocOf, beforeEmission,
        writeEvents, isWriteEvent, bannerEvents, print_step, print_error, h0, hv, hp,
        currentEnvPipCmd, condaCreateCmd, PIP_PACKAGES, ENV_NAME, TARGET_PY_VERSION,
        List.takeWhile_cons]

/-- An isolated run at version 3.12 with a succeeding pip install. -/
def stC4 : ProcState :=
  ⟨fun _ => ⟨"/venv", some "/usr", none⟩, 3, 12, 1, "/venv/bin/python",
   true, true, true, true, "Linux"⟩

/-- Witness for C4 at a concrete isolated run. -/
theorem C4_isolated_one_subproc_witness :
    is_virtual_env (stC4.snap 0) = true ∧
    versionBelowMin stC4.pyMajor stC4.pyMinor = false ∧
    subprocEvents (SetupPy.main stC4).1 = [(currentEnvPipCmd stC4, stC4.pipOk)] ∧
    (condaCreateCmd, true) ∉ subprocEvents (SetupPy.main stC4).1 :=
  ⟨by decide, by decide,
   (C4_isolated_one_subproc stC4 (by decide) (by decide)).1,
   (C4_isolated_one_subproc stC4 (by decide) (by decide)).2.2.2 true⟩

/-- A non-isolated run at version 3.9 with conda absent. -/
def stC5old : ProcState :=
  ⟨fun _ => ⟨"/usr", some "/usr", none⟩, 3, 9, 0, "/usr/bin/python3",
   false, true, true, true, "Linux"⟩

/-- A non-isolated run at version 3.12 with conda absent. -/
def stC5 : ProcState :=
  ⟨fun _ => ⟨"/usr", some "/usr", none⟩, 3, 12, 1, "/usr/bin/python3",
   false, true, true, true, "Linux"⟩

/-- C5 counterexample: a run in which the detector returns "not isolated"
and conda is not discoverable, but whose interpreter version is 3.9: the
process does exit non-zero with zero subprocess invocations, yet WITHOUT
printing the two suggested remediations — the version gate terminates the
run first.  This refutes the claim's "for every run" quantification. -/
theorem C5_counterexample :
    is_virtual_env (stC5old.snap 0) = false ∧
    stC5old.condaOnPath = false ∧
    (SetupPy.main stC5old).2 = 1 ∧
    subprocEvents (SetupPy.main stC5old).1 = [] ∧
    Event.print "    1. Create a venv (PyCharm/uv) and run this script inside it."
      ∉ (SetupPy.main stC5old).1 := by
  decide

/-- C5 (amended): for every run in which the detector returns "not
isolated" (at both of its evaluations), the version gate passes, and the
conda executable is not discoverable on the search path, zero creation or
installation subprocess invocations occur and the process terminates with
status 1 after printing the two suggested remediations. -/
theorem C5_no_conda_aborts (s : ProcState)
    (h0 : is_virtual_env (s.snap 0) = false)
    (h1 : is_virtual_env (s.snap 1) = false)
    (hv : versionBelowMin s.pyMajor s.pyMinor = false)
    (hc : s.condaOnPath = false) :
    subprocEvents (SetupPy.main s).1 = [] ∧
    (SetupPy.main s).2 = 1 ∧
    Event.print "    1. Create a venv (PyCharm/uv) and run this script inside it."
      ∈ (SetupPy.main s).1 ∧
    Event.print "    2. Install Anaconda/Miniconda." ∈ (SetupPy.main s).1 := by
  refine ⟨?_, ?_, ?_, ?_⟩ <;>
    simp [SetupPy.main, check_python_version, create_conda_env_if_needed,
      subprocEvents, subprocOf, bannerEvents, print_step, print_error,
      h0, h1, hv, hc]

/-- Witness for the amended C5 at a concrete run. -/
theorem C5_no_conda_aborts_witness :
    is_virtual_env (stC5.snap 0) = false ∧
    is_virtual_env (stC5.snap 1) = false ∧
    versionBelowMin stC5.pyMajor stC5.pyMinor = false ∧
    stC5.condaOnPath = false ∧
    subprocEvents (SetupPy.main stC5).1 = [] ∧
    (SetupPy.main stC5).2 = 1 ∧
    Event.print "    2. Install Anaconda/Miniconda." ∈ (SetupPy.main stC5).1 :=
  ⟨by decide, by decide, by decide, by decide,
   (C5_no_conda_aborts stC5 (by decide) (by decide) (by decide) (by decide)).1,
   (C5_no_conda_aborts stC5 (by decide) (by decide) (by decide) (by decide)).2.1,
   (C5_no_conda_aborts stC5 (by decide) (by decide) (by decide) (by decide)).2.2.2⟩

/-- C6: in every run in which the detector returns "not isolated" (at both
evaluations), the version gate passes, conda is present and the creation
subprocess succeeds, the complete sequence of subprocess invocations is
creation first, then the install-within-env; both lie in the trace prefix
before any file write, so both complete before the verification script is
emitted; and when the install succeeds the script is emitted. -/
theorem C6_two_subprocs (s : ProcState)
    (h0 : is_virtual_env (s.snap 0) = false)
    (h1 : is_virtual_env (s.snap 1) = false)
    (hv : versionBelowMin s.pyMajor s.pyMinor = false)
    (hc : s.condaOnPath = true)
    (hcr : s.createOk = true) :
    subprocEvents (SetupPy.main s).1 =
      [(condaCreateCmd, true), (condaRunPipCmd, s.condaPipOk)] ∧
    subprocEvents (beforeEmission (SetupPy.main s).1) =
      [(condaCreateCmd, true), (condaRunPipCmd, s.condaPipOk)] ∧
    (s.condaPipOk = true → writeEvents (SetupPy.main s).1 =
      [Event.writeFile "verify_install.py" verificationCode false]) := by
  by_cases hcp : s.condaPipOk = true <;>
  · refine ⟨?_, ?_, ?_⟩ <;>
      simp [SetupPy.main, check_python_version, create_conda_env_if_needed,
        install_packages_conda_env, create_verification_script, subprocEvents,
        subprocOf, beforeEmission, writeEvents, isWriteEvent, bannerEvents,
        print_step, print_error, h0, h1, hv, hc, hcr, hcp, List.takeWhile_cons]

/-- A non-isolated run at version 3.12 with conda present, all
subprocesses succeeding. -/
def stC6 : ProcState :=
  ⟨fun _ => ⟨"/usr", some "/usr", none⟩, 3, 12, 1, "/usr/bin/python3",
   true, true, true, true, "Linux"⟩

/-- Witness for C6 at a concrete non-isolated run. -/
theorem C6_two_subprocs_witness :
    is_virtual_env (stC6.snap 0) = false ∧
    versionBelowMin stC6.pyMajor stC6.pyMinor = false ∧
    stC6.condaOnPath = true ∧
    stC6.createOk = true ∧
    subprocEvents (SetupPy.main stC6).1 =
      [(condaCreateCmd, true), (condaRunPipCmd, stC6.condaPipOk)] ∧
    writeEvents (SetupPy.main stC6).1 =
      [Event.writeFile "verify_install.py" verificationCode false] :=
  ⟨by decide, by decide, by decide, by decide,
   (C6_two_subprocs stC6 (by decide) (by decide) (by decide) (by decide) (by decide)).1,
   (C6_two_subprocs stC6 (by decide) (by decide) (by decide) (by decide) (by decide)).2.2
     (by decide)⟩

/-- C7: on every successful provisioning run — exit status 0 and at least
one subprocess invocation, on either path — the trace contains exactly one
file write: the fixed filename `verify_install.py`, the fixed template
content (byte-identical on both paths), and overwrite (non-append) mode. -/
theorem C7_fixed_write (s : ProcState)
    (h0 : (SetupPy.main s).2 = 0)
    (h1 : subprocEvents (SetupPy.main s).1 ≠ []) :
    writeEvents (SetupPy.main s).1 =
      [Event.writeFile "verify_install.py" verificationCode false] := by
  by_cases hA : is_virtual_env (s.snap 0) = true <;>
  by_cases hv : versionBelowMin s.pyMajor s.pyMinor = true <;>
  by_cases h1v : is_virtual_env (s.snap 1) = true <;>
  by_cases hc : s.condaOnPath = true <;>
  by_cases hcr : s.createOk = true <;>
  by_cases hp : s.pipOk = true <;>
  by_cases hcp : s.condaPipOk = true <;>
    simp_all [SetupPy.main, check_python_version, install_packages_current_env,
      create_conda_env_if_needed, install_packages_conda_env,
      create_verification_script, subprocEvents, subprocOf, writeEvents,
      isWriteEvent, bannerEvents, print_step, print_error]

/-- An isolated run at version 3.12 with a succeeding pip install (for the
C7 witness). -/
def stC7 : ProcState :=
  ⟨fun _ => ⟨"/venv", some "/usr", none⟩, 3, 12, 1, "/venv/bin/python",
   true, true, true, true, "Linux"⟩

/-- Witness for C7 at a concrete successful provisioning run. -/
theorem C7_fixed_write_witness :
    (SetupPy.main stC7).2 = 0 ∧
    subprocEvents (SetupPy.main stC7).1 ≠ [] ∧
    writeEvents (SetupPy.main stC7).1 =
      [Event.writeFile "verify_install.py" verificationCode false] :=
  ⟨by decide, by decide, C7_fixed_write stC7 (by decide) (by decide)⟩

/-- C8: the defensive branch — detector false at the orchestrator's own
evaluation, true inside the creator (version gate passing): the process
terminates normally with exit status 0 (no error), with no file write (no
verification script emitted), no subprocess invocation, and neither
completion message printed. -/
theorem C8_defensive_silent (s : ProcState)
    (h0 : is_virtual_env (s.snap 0) = false)
    (h1 : is_virtual_env (s.snap 1) = true)
    (hv : versionBelowMin s.pyMajor s.pyMinor = false) :
    (SetupPy.main s).2 = 0 ∧
    writeEvents (SetupPy.main s).1 = [] ∧
    subprocEvents (SetupPy.main s).1 = [] ∧
    print_step "SETUP COMPLETE (In current environment)" ∉ (SetupPy.main s).1 ∧
    print_step "SETUP COMPLETE (New Conda Env Created)" ∉ (SetupPy.main s).1 := by
  refine ⟨?_, ?_, ?_, ?_, ?_⟩ <;>
    simp [SetupPy.main, check_python_version, create_conda_env_if_needed,
      subprocEvents, subprocOf, writeEvents, isWriteEvent, bannerEvents,
      print_step, print_error, h0, h1, hv] <;>
    exact ⟨fun h => append_ne_of_head _ _ _ ' ' (by decide) (by decide) h.symm,
           fun h => append_ne_of_head _ _ _ ' ' (by decide) (by decide) h.symm⟩

/-- A run where the detector reads "not isolated" at the orchestrator's
call but "isolated" at the creator's re-evaluation (the marker variable
appears between the two reads). -/
def stC8 : ProcState :=
  ⟨fun n => if n = 0 then ⟨"/usr", some "/usr", none⟩
            else ⟨"/usr", some "/usr", some "base"⟩,
   3, 12, 1, "/usr/bin/python3", true, true, true, true, "Linux"⟩

/-- Witness for C8 at a concrete defensive-branch run. -/
theorem C8_defensive_silent_witness :
    is_virtual_env (stC8.snap 0) = false ∧
    is_virtual_env (stC8.snap 1) = true ∧
    versionBelowMin stC8.pyMajor stC8.pyMinor = false ∧
    (SetupPy.main stC8).2 = 0 ∧
    writeEvents (SetupPy.main stC8).1 = [] ∧
    print_step "SETUP COMPLETE (In current environment)" ∉ (SetupPy.main stC8).1 :=
  ⟨by decide, by decide, by decide,
   (C8_defensive_silent stC8 (by decide) (by decide) (by decide)).1,
   (C8_defensive_silent stC8 (by decide) (by decide) (by decide)).2.1,
   (C8_defensive_silent stC8 (by decide) (by decide) (by decide)).2.2.2.1⟩

/-- C9: every subprocess of every run is invoked with exactly one of the
three documented argument shapes — in-place install
`<interpreter> -m pip install <packages>`, creation
`conda create -n <env> python=<version> -y`, isolated install
`conda run -n <env> pip install <packages>` — and both install shapes
consume the fixed package list `PIP_PACKAGES` in identical order as their
trailing arguments. -/
theorem C9_subproc_shapes (s : ProcState) :
    (∀ cmd ok, Event.subproc cmd ok ∈ (SetupPy.main s).1 →
      cmd = [s.sysExecutable, "-m", "pip", "install"] ++ PIP_PACKAGES ∨
      cmd = ["conda", "create", "-n", ENV_NAME, "python=" ++ TARGET_PY_VERSION, "-y"] ∨
      cmd = ["conda", "run", "-n", ENV_NAME, "pip", "install"] ++ PIP_PACKAGES) ∧
    currentEnvPipCmd s = [s.sysExecutable, "-m", "pip", "install"] ++ PIP_PACKAGES ∧
    condaCreateCmd = ["conda", "create", "-n", ENV_NAME, "python=" ++ TARGET_PY_VERSION, "-y"] ∧
    condaRunPipCmd = ["conda", "run", "-n", ENV_NAME, "pip", "install"] ++ PIP_PACKAGES ∧
    (currentEnvPipCmd s).drop 4 = PIP_PACKAGES ∧
    condaRunPipCmd.drop 6 = PIP_PACKAGES := by
  refine ⟨?_, rfl, rfl, rfl, rfl, rfl⟩
  intro cmd ok h
  by_cases hA : is_virtual_env (s.snap 0) = true <;>
  by_cases hv : versionBelowMin s.pyMajor s.pyMinor = true <;>
  by_cases h1v : is_virtual_env (s.snap 1) = true <;>
  by_cases hc : s.condaOnPath = true <;>
  by_cases hcr : s.createOk = true <;>
  by_cases hp : s.pipOk = true <;>
  by_cases hcp : s.condaPipOk = true <;>
    simp_all [SetupPy.main, check_python_version, install_packages_current_env,
      create_conda_env_if_needed, install_packages_conda_env,
      create_verification_script, bannerEvents, print_step, print_error,
      currentEnvPipCmd, condaCreateCmd, condaRunPipCmd, ENV_NAME,
      TARGET_PY_VERSION, PIP_PACKAGES] <;>
    tauto

/-- An isolated run at version 3.12 (for the C9 witness). -/
def stC9 : ProcState :=
  ⟨fun _ => ⟨"/venv", some "/usr", none⟩, 3, 12, 1, "/venv/bin/python",
   true, true, true, true, "Linux"⟩

/-- Witness for C9: the pip-install subprocess of a concrete isolated run
has one of the documented shapes. -/
theorem C9_subproc_shapes_witness :
    Event.subproc (currentEnvPipCmd stC9) true ∈ (SetupPy.main stC9).1 ∧
    (currentEnvPipCmd stC9 = [stC9.sysExecutable, "-m", "pip", "install"] ++ PIP_PACKAGES ∨
     currentEnvPipCmd stC9 = ["conda", "create", "-n", ENV_NAME,
       "python=" ++ TARGET_PY_VERSION, "-y"] ∨
     currentEnvPipCmd stC9 = ["conda", "run", "-n", ENV_NAME, "pip", "install"]
       ++ PIP_PACKAGES) :=
  ⟨by decide, (C9_subproc_shapes stC9).1 (currentEnvPipCmd stC9) true (by decide)⟩
